import Mathlib

/-!
Shallow embedding of the MernAi upload-and-evaluation pipeline.

Sources embedded here:
* `src/context/DatasetContext.tsx` (second document): the `ModelProvider`
  Result Store (`addModel`, `removeModel`, `clearModels`, the initial-load
  effect reading the `selectedModels` localStorage key) and, in the third
  document of that file, `validateDataset` of `DatasetComparisonPage`.
* `components/DatasetUploader` (src/unnamed/part_001): `handleDatasetUpload`
  extension validation.
* `pages/api/upload-dataset` (src/unnamed/part_005): the dataset upload
  handler's id generation (`Date.now().toString()`).
* `utils/modelHandler` (src/unnamed/part_008, second document):
  `validateModelFile`.
* `utils/modelEvaluation` (src/unnamed/part_008, first document):
  `evaluateModel`, `generateDummyMetrics`, `generateDummyKFoldResults`.
* `pages/SelfBenchmarkPage.tsx` (second document, `UnifiedBenchmarkPage`):
  `handleEvaluate` batch evaluation.

Modelling conventions: JavaScript numbers are modelled as `ℚ` (sizes and
clock readings as `ℕ`); `Math.random()` is an explicit stream parameter;
`Date.now()` and `new Date().toISOString()` are explicit clock parameters;
`JSON.parse` and the network evaluation API are explicit function
parameters (they are external to the repository); a JavaScript value that
may be `null`/`undefined` is an `Option`; a thrown exception is the
`Except.error` case.
-/

namespace MernAi

/-- Metrics record with the exact fields constructed by `handleEvaluate`
in `UnifiedBenchmarkPage` (accuracy, precision, recall, f1Score, latency,
throughput, memoryUsage, modelSize). -/
structure ModelMetrics where
  accuracy : ℚ
  precision : ℚ
  «recall» : ℚ
  f1Score : ℚ
  latency : ℚ
  throughput : ℚ
  memoryUsage : ℚ
  modelSize : ℚ
deriving Repr, DecidableEq

/-- Benchmark result record as constructed at runtime by
`handleModelUpload` and `handleEvaluate` in `UnifiedBenchmarkPage`:
fields `modelName`, `modelId`, `metrics`, `timestamp`, `fromLibrary` and
the optional `error` set on a failed evaluation. -/
structure BenchmarkResult where
  modelName : String
  modelId : String
  metrics : ModelMetrics
  timestamp : String
  fromLibrary : Bool
  error : Option String
deriving Repr, DecidableEq

/-- The browser localStorage slots the `ModelProvider` touches.  The JSON
string stored under the `selectedModels` key is abstracted to the list it
encodes (`JSON.stringify` is injective and `JSON.parse` inverts it on
values it produced); `none` means the key is absent. -/
structure LocalStorage where
  selectedModels : Option (List BenchmarkResult)
deriving Repr, DecidableEq

/-- Combined state of the `ModelProvider`: the in-memory React state
`selectedModels` together with the browser storage. -/
structure ModelStoreState where
  selectedModels : List BenchmarkResult
  storage : LocalStorage
deriving Repr, DecidableEq

/-- The `ModelProvider` state before any effect runs: empty list, and we
consider a storage with the key absent. -/
def emptyStore : ModelStoreState :=
  { selectedModels := [], storage := { selectedModels := none } }

/-- Embeds `addModel` of `ModelProvider`: if a model with the same
`modelName` already exists the previous state is returned unchanged
(no `setItem` call); otherwise the model is appended and the new list is
written to the `selectedModels` key. -/
def addModel (s : ModelStoreState) (model : BenchmarkResult) : ModelStoreState :=
  if s.selectedModels.any (fun m => m.modelName == model.modelName) then s
  else
    let newModels := s.selectedModels ++ [model]
    { selectedModels := newModels, storage := { selectedModels := some newModels } }

/-- Embeds `removeModel` of `ModelProvider`: `findIndex` on `modelName`;
`-1` (here `none`) returns the previous state unchanged, otherwise the
element at the found index is dropped (`slice(0, index)` concatenated
with `slice(index + 1)`) and the new list is written to storage. -/
def removeModel (s : ModelStoreState) (modelName : String) : ModelStoreState :=
  match s.selectedModels.findIdx? (fun m => m.modelName == modelName) with
  | none => s
  | some index =>
    let newModels := s.selectedModels.take index ++ s.selectedModels.drop (index + 1)
    { selectedModels := newModels, storage := { selectedModels := some newModels } }

/-- Embeds `clearModels` of `ModelProvider`: the in-memory list becomes
empty and the `selectedModels` key is removed from storage. -/
def clearModels (_s : ModelStoreState) : ModelStoreState :=
  { selectedModels := [], storage := { selectedModels := none } }

/-- State-storage synchronisation invariant: the in-memory list equals
the collection read from the `selectedModels` key, an absent key being
read as the empty collection. -/
def storeInvariant (s : ModelStoreState) : Prop :=
  s.selectedModels = s.storage.selectedModels.getD []

/-- Embeds the initial-load effect of `ModelProvider`:
`localStorage.getItem` yields `savedModels` (`none` models JavaScript
`null`); a falsy value (absent key or empty string) skips the update and
the state stays at its initial `[]`; otherwise `JSON.parse(savedModels)`
runs with no surrounding try/catch, so a parse failure propagates as an
exception.  `jsonParse` is the external `JSON.parse` primitive, returning
`Except.error` exactly on strings that are not valid JSON encodings of a
result list. -/
def loadSelectedModels (jsonParse : String → Except String (List BenchmarkResult))
    (savedModels : Option String) : Except String (List BenchmarkResult) :=
  match savedModels with
  | none => Except.ok []
  | some s => if s = "" then Except.ok [] else jsonParse s

/-! ### Upload handlers and file validators -/

/-- Embeds the id generation of the dataset upload handler
(`pages/api/upload-dataset`): `const fileId = Date.now().toString()`.
The same scheme produces `modelInfo.id` in `validateModelFile`.  `now`
is the millisecond reading of `Date.now()` at the time of the call. -/
def datasetFileId (now : ℕ) : String := Nat.repr now

/-- The ids returned by a sequence of `n` upload calls, the `i`-th call
observing the millisecond clock value `clock i`. -/
def datasetUploadIds (clock : ℕ → ℕ) (n : ℕ) : List String :=
  (List.range n).map (fun i => datasetFileId (clock i))

/-- ModelInfo record built by `validateModelFile` in `utils/modelHandler`
on acceptance. -/
structure ModelInfo where
  id : String
  name : String
  format : String
  size : ℕ
  timestamp : String
  type : String
deriving Repr, DecidableEq

/-- Size ceiling of `validateModelFile`: 500MB in bytes. -/
def maxModelFileSize : ℕ := 500 * 1024 * 1024

/-- JavaScript `toLowerCase` on a string viewed as its character
sequence; the file names involved are ASCII, where per-character
lowering coincides with the JavaScript behaviour. -/
def jsToLowerCase (cs : List Char) : List Char := cs.map Char.toLower

/-- JavaScript `name.endsWith(suffix)` on character sequences. -/
def jsEndsWith (cs suffix : List Char) : Bool := suffix.isSuffixOf cs

/-- The extension check of `validateModelFile`:
`file.name.toLowerCase().endsWith(".pkl")`. -/
def pklNameOk (name : String) : Bool :=
  jsEndsWith (jsToLowerCase name.toList) ".pkl".toList

/-- Embeds `validateModelFile` of `utils/modelHandler`.  Inputs are the
file metadata (`file.name`, `file.size`) together with the external
clock readings used to fill the accepted record (`Date.now()` as `now`,
`new Date().toISOString()` as `nowIso`).  The checks run in source
order: extension first (case-insensitive `.pkl` suffix), then the 500MB
ceiling; rejections are the exact `ModelValidationError` messages. -/
def validateModelFile (name : String) (size : ℕ) (now : ℕ) (nowIso : String) :
    Except String ModelInfo :=
  if ¬ (pklNameOk name = true) then
    Except.error "Invalid file format. Only .pkl files are supported."
  else if size > maxModelFileSize then
    Except.error "File size too large. Maximum size is 500MB."
  else
    Except.ok
      { id := Nat.repr now
        name := name
        format := "pkl"
        size := size
        timestamp := nowIso
        type := "gpt-4" }

/-- True exactly when the validation outcome is an acceptance. -/
def accepted {α : Type} : Except String α → Bool
  | Except.ok _ => true
  | Except.error _ => false

/-- Position of the last dot of `name`, mirroring the JavaScript
`name.lastIndexOf(".")`; `none` when the name has no dot (JavaScript
`-1`). -/
def lastIndexOfDot (name : String) : Option ℕ :=
  ((List.range name.toList.length).filter
    (fun i => name.toList.getD i ' ' = '.')).getLast?

/-- Embeds the extension computation of `handleDatasetUpload` in
`DatasetUploader`:
`file.name.substring(file.name.lastIndexOf(".")).toLowerCase()`.
When the name has no dot, `lastIndexOf` returns `-1` and `substring`
clamps it to `0`, so the whole name is taken. -/
def fileExtension (name : String) : List Char :=
  match lastIndexOfDot name with
  | some i => jsToLowerCase (name.toList.drop i)
  | none => jsToLowerCase name.toList

/-- Accepted dataset extensions in `handleDatasetUpload`
(`DatasetUploader`): the `validTypes` array. -/
def datasetValidTypes : List (List Char) :=
  [".csv".toList, ".xlsx".toList, ".xls".toList]

/-- The acceptance test of `handleDatasetUpload`:
`validTypes.includes(fileExtension)`. -/
def datasetUploadAccepts (name : String) : Bool :=
  datasetValidTypes.contains (fileExtension name)

/-- Embeds the validation phase of `handleDatasetUpload` in
`DatasetUploader`.  Returns the error message shown to the user (if
any) and whether an upload request is issued to the server: on a
rejected extension the function sets the error and returns before the
`fetch`, so nothing is persisted. -/
def handleDatasetUpload (name : String) : Option String × Bool :=
  if datasetUploadAccepts name = true then (none, true)
  else (some "Invalid file format. Only .csv, .xlsx, and .xls files are supported.", false)

/-- Validation result record of `validateDataset` in
`DatasetComparisonPage` (third document of `DatasetContext.tsx`). -/
structure DatasetValidationResult where
  isValid : Bool
  error : Option String
deriving Repr, DecidableEq

/-- JavaScript `split(sep)` on character sequences: splitting the empty
string yields `[""]`, and a trailing separator yields a final empty
segment, as in JavaScript. -/
def jsSplit (sep : Char) : List Char → List (List Char)
  | [] => [[]]
  | c :: rest =>
    let r := jsSplit sep rest
    if c = sep then [] :: r
    else
      match r with
      | [] => [[c]]
      | seg :: segs => (c :: seg) :: segs

/-- The `fileType` computation of `validateDataset`:
`file.name.split(".").pop()?.toLowerCase()`, with the `?? ""` supplied
by the `|| ""` of the membership test. -/
def validateDatasetFileType (name : String) : List Char :=
  (((jsSplit '.' name.toList).getLast?).map jsToLowerCase).getD []

/-- The acceptance test of `validateDataset`:
`["csv", "xlsx"].includes(fileType)` — note the absence of `xls`. -/
def validateDatasetAccepts (name : String) : Bool :=
  ["csv".toList, "xlsx".toList].contains (validateDatasetFileType name)

/-- Embeds `validateDataset` of `DatasetComparisonPage`: a missing file
is invalid; otherwise `file.name.split(".").pop()?.toLowerCase()` is
checked against `["csv", "xlsx"]` (note: this validator does not accept
`xls`); on a miss the result is invalid with the source's message. -/
def validateDataset (file : Option String) : DatasetValidationResult :=
  match file with
  | none => { isValid := false, error := some "No file provided" }
  | some name =>
    if ¬ (validateDatasetAccepts name = true) then
      { isValid := false
        error := some "Invalid file type. Please upload a .csv or .xlsx file" }
    else
      { isValid := true, error := none }

/-! ### Batch evaluation (`handleEvaluate` in `UnifiedBenchmarkPage`) -/

/-- Abstract uploaded file: `handleEvaluate` only tests the context's
`dataset` for truthiness, so its contents are irrelevant. -/
structure UploadedFile where
  name : String
  size : ℕ
deriving Repr, DecidableEq

/-- The zero metrics record pushed with an error result in
`handleEvaluate`. -/
def zeroMetrics : ModelMetrics :=
  { accuracy := 0, precision := 0, «recall» := 0, f1Score := 0
    latency := 0, throughput := 0, memoryUsage := 0, modelSize := 0 }

/-- Simulated metrics for a library model in `handleEvaluate`, in source
order of the `Math.random()` calls: each field is
`Math.random() * span + base` with the stream `rand` supplying the
consecutive random draws. -/
def libraryMetrics (rand : ℕ → ℚ) : ModelMetrics :=
  { accuracy := rand 0 * (3 / 10) + 7 / 10
    f1Score := rand 1 * (3 / 10) + 7 / 10
    precision := rand 2 * (3 / 10) + 7 / 10
    «recall» := rand 3 * (3 / 10) + 7 / 10
    latency := rand 4 * 100 + 50
    throughput := rand 5 * 1000 + 500
    memoryUsage := rand 6 * 1000 + 500
    modelSize := rand 7 * 100 + 50 }

/-- The JavaScript truthiness test `!dataset || !datasetPath` in
`handleEvaluate`: true when the context has no dataset file, or the
stored path is `null` or the empty string. -/
def missingDataset (dataset : Option UploadedFile) (datasetPath : Option String) : Bool :=
  dataset.isNone || (datasetPath.getD "") == ""

/-- Per-model metric computation of `handleEvaluate`, before the
per-model catch.  A library model gets `libraryMetrics`.  A custom model
first requires the dataset (`throw` with the source message when
missing), then dispatches `api.evaluateModel(model.modelId, datasetPath)`
— modelled by the external `evalApi`, whose `Except.error` is a network
or server failure and whose `Except.ok none` is a response without a
`metrics` field; both are rethrown wrapped in the per-model message. -/
def evaluateMetrics (dataset : Option UploadedFile) (datasetPath : Option String)
    (evalApi : String → String → Except String (Option ModelMetrics))
    (rand : ℕ → ℚ) (model : BenchmarkResult) : Except String ModelMetrics :=
  if model.fromLibrary then Except.ok (libraryMetrics rand)
  else if missingDataset dataset datasetPath then
    Except.error "Please upload a dataset before evaluating custom models"
  else
    match evalApi model.modelId (datasetPath.getD "") with
    | Except.error msg =>
      Except.error ("Failed to evaluate " ++ model.modelName ++ ": " ++ msg)
    | Except.ok none =>
      Except.error ("Failed to evaluate " ++ model.modelName ++ ": Evaluation failed to return metrics")
    | Except.ok (some m) => Except.ok m

/-- One iteration of the `handleEvaluate` loop: the per-model try/catch.
On success a result with the computed metrics and no error is pushed; on
any throw a result with zero metrics and the error message is pushed —
the failure never escapes the loop.  `now` is the
`new Date().toISOString()` reading of this iteration. -/
def evaluateOne (dataset : Option UploadedFile) (datasetPath : Option String)
    (evalApi : String → String → Except String (Option ModelMetrics))
    (rand : ℕ → ℚ) (now : String) (model : BenchmarkResult) : BenchmarkResult :=
  match evaluateMetrics dataset datasetPath evalApi rand model with
  | Except.ok m =>
    { modelName := model.modelName, modelId := model.modelId, metrics := m
      timestamp := now, fromLibrary := model.fromLibrary, error := none }
  | Except.error msg =>
    { modelName := model.modelName, modelId := model.modelId, metrics := zeroMetrics
      timestamp := now, fromLibrary := model.fromLibrary
      error := some ("Failed to evaluate model: " ++ msg) }

/-- The `for (const model of selectedModels)` loop of `handleEvaluate`:
results are pushed in input order, one per model; `i` indexes the
iteration so each gets its own random draws and timestamp. -/
def evaluateLoop (dataset : Option UploadedFile) (datasetPath : Option String)
    (evalApi : String → String → Except String (Option ModelMetrics))
    (rand : ℕ → ℕ → ℚ) (now : ℕ → String) :
    ℕ → List BenchmarkResult → List BenchmarkResult
  | _, [] => []
  | i, model :: rest =>
    evaluateOne dataset datasetPath evalApi (rand i) (now i) model ::
      evaluateLoop dataset datasetPath evalApi rand now (i + 1) rest

/-- Embeds `handleEvaluate` of `UnifiedBenchmarkPage`.  With no selected
model it sets an error and returns without producing results (`none`);
otherwise it returns the collected result list, which then becomes the
comparison results. -/
def handleEvaluate (dataset : Option UploadedFile) (datasetPath : Option String)
    (evalApi : String → String → Except String (Option ModelMetrics))
    (rand : ℕ → ℕ → ℚ) (now : ℕ → String)
    (selectedModels : List BenchmarkResult) : Option (List BenchmarkResult) :=
  if selectedModels.length = 0 then none
  else some (evaluateLoop dataset datasetPath evalApi rand now 0 selectedModels)

/-! ### Simulated evaluation utility (`utils/modelEvaluation`) -/

/-- Per-hardware performance numbers of the `ModelMetrics` type in
`types` (part_006). -/
structure HardwarePerf where
  inferenceTime : ℚ
  latency : ℚ
  throughput : ℚ
deriving Repr, DecidableEq

/-- Hardware section of the `types` `ModelMetrics`. -/
structure HardwareMetrics where
  cpu : HardwarePerf
  gpu : Option HardwarePerf
deriving Repr, DecidableEq

/-- The `ModelMetrics` interface of `types` (part_006) as populated by
`generateDummyMetrics` in `utils/modelEvaluation`. -/
structure FullModelMetrics where
  accuracy : ℚ
  precision : ℚ
  «recall» : ℚ
  f1Score : ℚ
  inferenceTime : ℚ
  memoryUsage : ℚ
  parameters : ℚ
  flops : ℚ
  modelSize : ℚ
  hardware : HardwareMetrics
deriving Repr, DecidableEq

/-- One fold of the simulated k-fold results (`KFoldResult` in
`utils/modelEvaluation`). -/
structure KFoldResult where
  fold : ℕ
  accuracy : ℚ
  precision : ℚ
  «recall» : ℚ
  f1Score : ℚ
deriving Repr, DecidableEq

/-- Result record of `evaluateModel` in `utils/modelEvaluation`
(`ModelEvaluationResult`). -/
structure ModelEvaluationResult where
  metrics : FullModelMetrics
  kFoldResults : List KFoldResult
  isSimulated : Bool
deriving Repr, DecidableEq

/-- Embeds `generateDummyKFoldResults`: `k` folds numbered from 1, each
drawing four consecutive randoms from the stream `rand`. -/
def generateDummyKFoldResults (rand : ℕ → ℚ) (k : ℕ) : List KFoldResult :=
  (List.range k).map (fun i =>
    { fold := i + 1
      accuracy := 85 / 100 + rand (4 * i) * (1 / 10)
      precision := 83 / 100 + rand (4 * i + 1) * (1 / 10)
      «recall» := 82 / 100 + rand (4 * i + 2) * (1 / 10)
      f1Score := 84 / 100 + rand (4 * i + 3) * (1 / 10) })

/-- Embeds `generateDummyMetrics` of `utils/modelEvaluation`: built-in
models get the higher base value; the `Math.random()` stream is `rand`,
one draw per randomised field in source order. -/
def generateDummyMetrics (isBuiltInModel : Bool) (rand : ℕ → ℚ) : FullModelMetrics :=
  let baseValue : ℚ := if isBuiltInModel then 9 / 10 else 85 / 100
  let variance : ℚ := 5 / 100
  { accuracy := baseValue + rand 0 * variance
    precision := baseValue - 2 / 100 + rand 1 * variance
    «recall» := baseValue - 1 / 100 + rand 2 * variance
    f1Score := baseValue - 1 / 100 + rand 3 * variance
    inferenceTime := if isBuiltInModel then 8 + rand 4 * 4 else 12 + rand 4 * 5
    memoryUsage := if isBuiltInModel then 180 + rand 5 * 40 else 220 + rand 5 * 50
    parameters := if isBuiltInModel then 800000 else 1000000
    flops := if isBuiltInModel then (18 / 10) * 10 ^ 9 else (23 / 10) * 10 ^ 9
    modelSize := if isBuiltInModel then 75 else 98
    hardware :=
      { cpu :=
          { inferenceTime := if isBuiltInModel then 15 else 22
            latency := if isBuiltInModel then 12 else 20
            throughput := if isBuiltInModel then 150 else 110 }
        gpu := some
          { inferenceTime := if isBuiltInModel then 3 else 5
            latency := if isBuiltInModel then 2 else 4
            throughput := if isBuiltInModel then 800 else 550 } } }

/-- Embeds `evaluateModel` of `utils/modelEvaluation` (after its
simulated delay): both branches return simulated results flagged
`isSimulated := true`; the metrics stream and the k-fold stream are the
successive `Math.random()` draws. -/
def evaluateModel (_model _dataset : UploadedFile) (isBuiltInModel : Bool)
    (rand : ℕ → ℚ) : ModelEvaluationResult :=
  if isBuiltInModel then
    { metrics := generateDummyMetrics true rand
      kFoldResults := generateDummyKFoldResults (fun n => rand (10 + n)) 5
      isSimulated := true }
  else
    { metrics := generateDummyMetrics false rand
      kFoldResults := generateDummyKFoldResults (fun n => rand (10 + n)) 5
      isSimulated := true }

/-! ### Helper lemmas -/

/-- The `findIndex` / `slice` combination used by `removeModel` computes
exactly the removal of the first element satisfying the predicate. -/
theorem findIdx?_take_drop_eq_eraseP {α : Type} (p : α → Bool) (l : List α) :
    (match l.findIdx? p with
     | none => l
     | some i => l.take i ++ l.drop (i + 1)) = l.eraseP p := by
  induction l with
  | nil => rfl
  | cons a t ih =>
    rw [List.findIdx?_cons]
    by_cases h : p a
    · simp [h]
    · rw [if_neg h]
      have hsucc : t.findIdx? p 1 = (t.findIdx? p).map (· + 1) :=
        List.findIdx?_succ
      rw [hsucc, List.eraseP_cons_of_neg h]
      cases ht : t.findIdx? p with
      | none =>
        rw [ht] at ih
        simpa using congrArg (List.cons a) ih
      | some i =>
        rw [ht] at ih
        simpa [List.take_succ_cons, List.drop_succ_cons] using congrArg (List.cons a) ih

/-! ### Claims -/

/-- Concrete benchmark result used by the closed witness theorems. -/
def sampleResult : BenchmarkResult :=
  { modelName := "net", modelId := "id1", metrics := zeroMetrics
    timestamp := "t0", fromLibrary := true, error := none }

/-- Concrete store holding `sampleResult` both in memory and in storage,
used by the closed witness theorems. -/
def sampleStore : ModelStoreState :=
  { selectedModels := [sampleResult]
    storage := { selectedModels := some [sampleResult] } }

/-- Claim C4: the Result Store `addModel` is deduplicating and idempotent
per model name: whenever a result with the same model name is already in
the store the call is a no-op (first-write-wins), and adding the same
result twice starting from the empty store leaves a store of length 1. -/
theorem addModel_dedup_idempotent (s : ModelStoreState) (r : BenchmarkResult)
    (hmem : ∃ m ∈ s.selectedModels, m.modelName = r.modelName) :
    addModel s r = s ∧
    (addModel (addModel emptyStore r) r).selectedModels.length = 1 := by
  constructor
  · unfold addModel
    rcases hmem with ⟨m, hm, he⟩
    rw [if_pos (List.any_eq_true.mpr ⟨m, hm, by simpa using he⟩)]
  · simp [addModel, emptyStore]

/-- Witness for C4 at a concrete store already containing the name. -/
theorem addModel_dedup_idempotent_witness :
    addModel sampleStore
      { modelName := "net", modelId := "id2", metrics := zeroMetrics
        timestamp := "t1", fromLibrary := false, error := none } = sampleStore ∧
    (addModel
      (addModel emptyStore
        { modelName := "net", modelId := "id2", metrics := zeroMetrics
          timestamp := "t1", fromLibrary := false, error := none })
      { modelName := "net", modelId := "id2", metrics := zeroMetrics
        timestamp := "t1", fromLibrary := false, error := none }).selectedModels.length = 1 :=
  addModel_dedup_idempotent sampleStore _ ⟨sampleResult, by simp [sampleStore], rfl⟩

/-- Claim C9: the Result Store `removeModel` removes exactly the first
entry whose model name matches, and when no entry matches (including the
empty store) the whole state is returned unchanged. -/
theorem removeModel_eraseP_or_noop (s : ModelStoreState) (name : String) :
    (removeModel s name).selectedModels =
      s.selectedModels.eraseP (fun m => m.modelName == name) ∧
    ((∀ m ∈ s.selectedModels, m.modelName ≠ name) → removeModel s name = s) := by
  constructor
  · have hmain := findIdx?_take_drop_eq_eraseP (fun m => m.modelName == name) s.selectedModels
    unfold removeModel
    cases h : s.selectedModels.findIdx? (fun m => m.modelName == name) with
    | none => rw [h] at hmain; exact hmain
    | some i => rw [h] at hmain; exact hmain
  · intro habs
    unfold removeModel
    have hnone : s.selectedModels.findIdx? (fun m => m.modelName == name) = none := by
      rw [List.findIdx?_eq_none_iff]
      intro m hm
      simpa using habs m hm
    rw [hnone]

/-- Witness for C9 at a concrete store where the name is absent. -/
theorem removeModel_eraseP_or_noop_witness :
    (removeModel sampleStore "absent").selectedModels =
      sampleStore.selectedModels.eraseP (fun m => m.modelName == "absent") ∧
    ((∀ m ∈ sampleStore.selectedModels, m.modelName ≠ "absent") →
      removeModel sampleStore "absent" = sampleStore) :=
  removeModel_eraseP_or_noop sampleStore "absent"

/-- Claim C10: assuming the in-memory list equals the collection stored
under the `selectedModels` key (absent key read as empty), every Result
Store operation preserves that equality; a no-op `addModel` or
`removeModel` leaves storage untouched, and `clearModels` removes the
key. -/
theorem store_sync_invariant (s : ModelStoreState) (model : BenchmarkResult)
    (name : String) (hinv : storeInvariant s) :
    storeInvariant (addModel s model) ∧
    storeInvariant (removeModel s name) ∧
    storeInvariant (clearModels s) ∧
    (s.selectedModels.any (fun m => m.modelName == model.modelName) = true →
      (addModel s model).storage = s.storage) ∧
    (s.selectedModels.findIdx? (fun m => m.modelName == name) = none →
      (removeModel s name).storage = s.storage) ∧
    (clearModels s).storage.selectedModels = none := by
  refine ⟨?_, ?_, ?_, ?_, ?_, rfl⟩
  · unfold addModel
    by_cases h : s.selectedModels.any (fun m => m.modelName == model.modelName)
    · rw [if_pos h]; exact hinv
    · rw [if_neg h]; rfl
  · unfold removeModel
    cases h : s.selectedModels.findIdx? (fun m => m.modelName == name) with
    | none => exact hinv
    | some i => rfl
  · rfl
  · intro h
    unfold addModel
    rw [if_pos h]
  · intro h
    unfold removeModel
    rw [h]

/-- Witness for C10 at the empty store, whose invariant holds. -/
theorem store_sync_invariant_witness :
    storeInvariant (addModel emptyStore sampleResult) ∧
    storeInvariant (removeModel emptyStore "net") ∧
    storeInvariant (clearModels emptyStore) ∧
    (emptyStore.selectedModels.any (fun m => m.modelName == sampleResult.modelName) = true →
      (addModel emptyStore sampleResult).storage = emptyStore.storage) ∧
    (emptyStore.selectedModels.findIdx? (fun m => m.modelName == "net") = none →
      (removeModel emptyStore "net").storage = emptyStore.storage) ∧
    (clearModels emptyStore).storage.selectedModels = none :=
  store_sync_invariant emptyStore sampleResult "net" rfl

/-- Claim C1 fails on the code: the initial-load effect of
`ModelProvider` calls `JSON.parse` with no try/catch, so a stored string
that is not valid JSON makes the load throw instead of yielding the
empty collection.  Concretely, with `JSON.parse` raising its syntax
error on the corrupt payload, the load propagates that error and does
not produce the empty store. -/
theorem load_corrupt_throws_counterexample :
    loadSelectedModels (fun _ => Except.error "SyntaxError: Unexpected token")
      (some "corrupt-payload") = Except.error "SyntaxError: Unexpected token" ∧
    loadSelectedModels (fun _ => Except.error "SyntaxError: Unexpected token")
      (some "corrupt-payload") ≠ Except.ok [] := by
  refine ⟨rfl, ?_⟩
  intro h
  simp [loadSelectedModels] at h

/-- Claim C1 amended: on initial load an absent key (or an empty stored
string, which is falsy in JavaScript) yields the empty collection, but a
stored string on which `JSON.parse` fails makes the load propagate the
parse exception — the store is not reset to empty. -/
theorem load_absent_empty_corrupt_propagates
    (jsonParse : String → Except String (List BenchmarkResult))
    (s e : String) (hs : s ≠ "") (hparse : jsonParse s = Except.error e) :
    loadSelectedModels jsonParse none = Except.ok [] ∧
    loadSelectedModels jsonParse (some "") = Except.ok [] ∧
    loadSelectedModels jsonParse (some s) = Except.error e := by
  refine ⟨rfl, by simp [loadSelectedModels], ?_⟩
  simp [loadSelectedModels, hs, hparse]

/-- Witness for the amended C1 with a concrete failing parse. -/
theorem load_absent_empty_corrupt_propagates_witness :
    loadSelectedModels (fun _ => Except.error "SyntaxError") none = Except.ok [] ∧
    loadSelectedModels (fun _ => Except.error "SyntaxError") (some "") = Except.ok [] ∧
    loadSelectedModels (fun _ => Except.error "SyntaxError") (some "oops") =
      Except.error "SyntaxError" :=
  load_absent_empty_corrupt_propagates (fun _ => Except.error "SyntaxError") "oops"
    "SyntaxError" (by decide) rfl

/-- Claim C5 fails on the code: `.xls` is inside the claimed accepted
set and passes the DatasetUploader check, yet `validateDataset` in
`DatasetComparisonPage` — one of the dataset validators the claim covers
— rejects `data.xls`, because it only accepts `csv` and `xlsx`. -/
theorem dataset_xls_rejected_counterexample :
    datasetUploadAccepts "data.xls" = true ∧
    (validateDataset (some "data.xls")).isValid = false ∧
    (validateDataset (some "data.xls")).error =
      some "Invalid file type. Please upload a .csv or .xlsx file" := by
  refine ⟨by decide, by decide, by decide⟩

/-- Claim C5 amended: the DatasetUploader's `handleDatasetUpload`
accepts exactly the extensions `.csv`, `.xlsx`, `.xls` — anything else
is rejected with the unsupported-format message and no upload request
is issued (nothing is persisted); the `validateDataset` used by
`DatasetComparisonPage`, however, accepts exactly the last name segment
`csv` or `xlsx`, so `.xls` files fail that validator. -/
theorem dataset_extension_validators_differ (name : String) :
    ((handleDatasetUpload name).2 = true ↔ fileExtension name ∈ datasetValidTypes) ∧
    ((handleDatasetUpload name).1 = none ↔ fileExtension name ∈ datasetValidTypes) ∧
    ((validateDataset (some name)).isValid = true ↔
      validateDatasetFileType name ∈ (["csv".toList, "xlsx".toList] : List (List Char))) := by
  have hmem : datasetUploadAccepts name = true ↔ fileExtension name ∈ datasetValidTypes := by
    simp [datasetUploadAccepts]
  have hmem2 : validateDatasetAccepts name = true ↔
      validateDatasetFileType name ∈ (["csv".toList, "xlsx".toList] : List (List Char)) := by
    simp [validateDatasetAccepts]
  refine ⟨?_, ?_, ?_⟩
  · rw [← hmem]; cases h : datasetUploadAccepts name <;> simp [handleDatasetUpload, h]
  · rw [← hmem]; cases h : datasetUploadAccepts name <;> simp [handleDatasetUpload, h]
  · rw [← hmem2]; cases h : validateDatasetAccepts name <;> simp [validateDataset, h]

/-- Claim C8 fails on the code as universally stated: `validateModelFile`
checks the extension before the size, so a 600MB non-pkl file is
rejected with the format error, not the too-large error. -/
theorem model_size_after_extension_counterexample :
    maxModelFileSize < 600 * 1024 * 1024 ∧
    validateModelFile "big.h5" (600 * 1024 * 1024) 0 "t" =
      Except.error "Invalid file format. Only .pkl files are supported." ∧
    validateModelFile "big.h5" (600 * 1024 * 1024) 0 "t" ≠
      Except.error "File size too large. Maximum size is 500MB." := by
  refine ⟨by norm_num [maxModelFileSize], rfl, ?_⟩
  intro hc
  rw [(rfl : validateModelFile "big.h5" (600 * 1024 * 1024) 0 "t" =
      Except.error "Invalid file format. Only .pkl files are supported.")] at hc
  exact absurd (Except.error.inj hc) (by decide)

/-- Claim C8 amended: `validateModelFile` decides from file metadata
only (its acceptance does not depend on the clock readings used to fill
the record): a name not ending in `.pkl` (case-insensitively) is
rejected with the format error — this check runs first, so it also
catches oversized non-pkl files; a `.pkl` name above the 500MB ceiling
is rejected with the too-large error; a `.pkl` name at or under the
ceiling is accepted with the populated `ModelInfo`. -/
theorem validateModelFile_characterisation (name : String) (size now now' : ℕ)
    (nowIso nowIso' : String) :
    (pklNameOk name = false →
      validateModelFile name size now nowIso =
        Except.error "Invalid file format. Only .pkl files are supported.") ∧
    (pklNameOk name = true → maxModelFileSize < size →
      validateModelFile name size now nowIso =
        Except.error "File size too large. Maximum size is 500MB.") ∧
    (pklNameOk name = true → size ≤ maxModelFileSize →
      validateModelFile name size now nowIso =
        Except.ok { id := Nat.repr now, name := name, format := "pkl", size := size,
                    timestamp := nowIso, type := "gpt-4" }) ∧
    accepted (validateModelFile name size now nowIso) =
      accepted (validateModelFile name size now' nowIso') := by
  refine ⟨?_, ?_, ?_, ?_⟩
  · intro h; simp [validateModelFile, h]
  · intro h hs; simp [validateModelFile, h, hs]
  · intro h hs; simp [validateModelFile, h, Nat.not_lt.mpr hs]
  · cases h : pklNameOk name with
    | false => simp [validateModelFile, h, accepted]
    | true =>
      by_cases hs : maxModelFileSize < size <;>
        simp [validateModelFile, h, hs, accepted]

/-- Witness for the amended C8: a small `.pkl` file is accepted. -/
theorem validateModelFile_characterisation_witness :
    validateModelFile "model.pkl" 1024 1700000000000 "2026-01-01T00:00:00.000Z" =
      Except.ok { id := Nat.repr 1700000000000, name := "model.pkl", format := "pkl",
                  size := 1024, timestamp := "2026-01-01T00:00:00.000Z", type := "gpt-4" } :=
  (validateModelFile_characterisation "model.pkl" 1024 1700000000000 0
    "2026-01-01T00:00:00.000Z" "x").2.2.1 (by decide) (by decide)

/-- Claim C2 is right about the intent (the handler's comment says it
generates a unique filename) but the code is wrong: ids are
`Date.now().toString()`, so two upload calls landing in the same
millisecond — entirely possible among 1000 rapid sequential calls —
receive the identical id.  Here all 1000 calls observe the same
millisecond and the first two returned ids coincide. -/
theorem datasetFileId_collision :
    (datasetUploadIds (fun _ => 1700000000000) 1000).length = 1000 ∧
    (datasetUploadIds (fun _ => 1700000000000) 1000)[0]? =
      some (datasetFileId 1700000000000) ∧
    (datasetUploadIds (fun _ => 1700000000000) 1000)[1]? =
      some (datasetFileId 1700000000000) := by
  refine ⟨by rw [datasetUploadIds, List.length_map, List.length_range], ?_, ?_⟩ <;>
    · simp only [datasetUploadIds, List.getElem?_map]
      rw [List.getElem?_range (by norm_num)]
      rfl

/-- Concrete custom-upload model (no library origin) for witnesses. -/
def customSample : BenchmarkResult :=
  { modelName := "custom", modelId := "mid", metrics := zeroMetrics
    timestamp := "t", fromLibrary := false, error := none }

/-- Concrete library model for witnesses. -/
def librarySample : BenchmarkResult :=
  { modelName := "lib", modelId := "lid", metrics := zeroMetrics
    timestamp := "t", fromLibrary := true, error := none }

/-- Claim C3: batch evaluation of selected models `[A, B, C]` where B's
per-model evaluation fails produces exactly three results in input
order — A a success, B an error result, C a success: each model is
evaluated independently, B's failure aborts neither C nor the
collection, and the list is never partial or reordered. -/
theorem batch_eval_order_isolation (A B C : BenchmarkResult)
    (dataset : Option UploadedFile) (datasetPath : Option String)
    (evalApi : String → String → Except String (Option ModelMetrics))
    (rand : ℕ → ℕ → ℚ) (now : ℕ → String) (mA mC : ModelMetrics) (eB : String)
    (hA : evaluateMetrics dataset datasetPath evalApi (rand 0) A = Except.ok mA)
    (hB : evaluateMetrics dataset datasetPath evalApi (rand 1) B = Except.error eB)
    (hC : evaluateMetrics dataset datasetPath evalApi (rand 2) C = Except.ok mC) :
    handleEvaluate dataset datasetPath evalApi rand now [A, B, C] = some
      [{ modelName := A.modelName, modelId := A.modelId, metrics := mA,
         timestamp := now 0, fromLibrary := A.fromLibrary, error := none },
       { modelName := B.modelName, modelId := B.modelId, metrics := zeroMetrics,
         timestamp := now 1, fromLibrary := B.fromLibrary,
         error := some ("Failed to evaluate model: " ++ eB) },
       { modelName := C.modelName, modelId := C.modelId, metrics := mC,
         timestamp := now 2, fromLibrary := C.fromLibrary, error := none }] := by
  simp only [handleEvaluate, evaluateLoop, evaluateOne, List.length_cons, List.length_nil]
  norm_num
  rw [hA, hB, hC]
  exact ⟨rfl, rfl, rfl⟩

/-- Witness for C3: two library models around a custom model that fails
for lack of a dataset. -/
theorem batch_eval_order_isolation_witness :
    handleEvaluate none none (fun _ _ => Except.ok none) (fun _ _ => 0) (fun _ => "now")
      [librarySample, customSample, librarySample] = some
      [{ modelName := librarySample.modelName, modelId := librarySample.modelId,
         metrics := libraryMetrics (fun _ => 0), timestamp := "now",
         fromLibrary := librarySample.fromLibrary, error := none },
       { modelName := customSample.modelName, modelId := customSample.modelId,
         metrics := zeroMetrics, timestamp := "now",
         fromLibrary := customSample.fromLibrary,
         error := some ("Failed to evaluate model: " ++
           "Please upload a dataset before evaluating custom models") },
       { modelName := librarySample.modelName, modelId := librarySample.modelId,
         metrics := libraryMetrics (fun _ => 0), timestamp := "now",
         fromLibrary := librarySample.fromLibrary, error := none }] :=
  batch_eval_order_isolation librarySample customSample librarySample none none
    (fun _ _ => Except.ok none) (fun _ _ => 0) (fun _ => "now")
    (libraryMetrics (fun _ => 0)) (libraryMetrics (fun _ => 0))
    "Please upload a dataset before evaluating custom models" rfl rfl rfl

/-- Claim C6: the simulated evaluation utility marks every
library-origin (built-in) evaluation `isSimulated = true`; and in the
batch evaluator, a custom-upload model evaluated while the stored
dataset path is absent yields the descriptive failure immediately —
the result does not depend on the evaluation API, so no network
dispatch is involved. -/
theorem library_simulated_custom_needs_dataset
    (model dsFile : UploadedFile) (rand rand2 : ℕ → ℚ)
    (bmodel : BenchmarkResult) (dataset : Option UploadedFile)
    (evalApi : String → String → Except String (Option ModelMetrics)) (now : String)
    (hcustom : bmodel.fromLibrary = false) :
    (evaluateModel model dsFile true rand).isSimulated = true ∧
    evaluateOne dataset none evalApi rand2 now bmodel =
      { modelName := bmodel.modelName, modelId := bmodel.modelId, metrics := zeroMetrics,
        timestamp := now, fromLibrary := bmodel.fromLibrary,
        error := some ("Failed to evaluate model: " ++
          "Please upload a dataset before evaluating custom models") } := by
  constructor
  · simp [evaluateModel]
  · have hmiss : missingDataset dataset none = true := by
      simp [missingDataset]
    have hev : evaluateMetrics dataset none evalApi rand2 bmodel =
        Except.error "Please upload a dataset before evaluating custom models" := by
      simp [evaluateMetrics, hcustom, hmiss]
    simp [evaluateOne, hev]

/-- Witness for C6 at concrete files and a concrete custom model. -/
theorem library_simulated_custom_needs_dataset_witness :
    (evaluateModel ⟨"m.pkl", 10⟩ ⟨"d.csv", 5⟩ true (fun _ => 0)).isSimulated = true ∧
    evaluateOne none none (fun _ _ => Except.ok none) (fun _ => 0) "now" customSample =
      { modelName := customSample.modelName, modelId := customSample.modelId,
        metrics := zeroMetrics, timestamp := "now",
        fromLibrary := customSample.fromLibrary,
        error := some ("Failed to evaluate model: " ++
          "Please upload a dataset before evaluating custom models") } :=
  library_simulated_custom_needs_dataset ⟨"m.pkl", 10⟩ ⟨"d.csv", 5⟩ (fun _ => 0) (fun _ => 0)
    customSample none (fun _ _ => Except.ok none) "now" rfl

/-- Every result the evaluation loop pushes with a non-empty error
field carries the zero metrics record. -/
theorem evaluateLoop_error_zero_metrics (dataset : Option UploadedFile)
    (datasetPath : Option String)
    (evalApi : String → String → Except String (Option ModelMetrics))
    (rand : ℕ → ℕ → ℚ) (now : ℕ → String) (models : List BenchmarkResult) :
    ∀ (i : ℕ) (r : BenchmarkResult),
      r ∈ evaluateLoop dataset datasetPath evalApi rand now i models →
      r.error ≠ none → r.metrics = zeroMetrics := by
  induction models with
  | nil => intro i r hr _; simp [evaluateLoop] at hr
  | cons m rest ih =>
    intro i r hr herr
    have hstep : evaluateLoop dataset datasetPath evalApi rand now i (m :: rest) =
        evaluateOne dataset datasetPath evalApi (rand i) (now i) m ::
          evaluateLoop dataset datasetPath evalApi rand now (i + 1) rest := rfl
    rw [hstep] at hr
    rcases List.mem_cons.mp hr with h | h
    · subst h
      cases hev : evaluateMetrics dataset datasetPath evalApi (rand i) m with
      | ok mm =>
        exfalso
        apply herr
        simp [evaluateOne, hev]
      | error msg =>
        simp [evaluateOne, hev]
    · exact ih (i + 1) r h herr

/-- Claim C7: in every result list produced by the batch evaluator, a
result whose error field is set carries all-zero numeric metrics
(accuracy, precision, recall, f1, latency, throughput, memory usage,
model size are all zero). -/
theorem error_results_zero_metrics (dataset : Option UploadedFile)
    (datasetPath : Option String)
    (evalApi : String → String → Except String (Option ModelMetrics))
    (rand : ℕ → ℕ → ℚ) (now : ℕ → String) (models results : List BenchmarkResult)
    (r : BenchmarkResult)
    (hres : handleEvaluate dataset datasetPath evalApi rand now models = some results)
    (hmem : r ∈ results) (herr : r.error ≠ none) :
    r.metrics = zeroMetrics := by
  unfold handleEvaluate at hres
  by_cases h : models.length = 0
  · rw [if_pos h] at hres
    exact absurd hres (by simp)
  · rw [if_neg h] at hres
    injection hres with h2
    subst h2
    exact evaluateLoop_error_zero_metrics dataset datasetPath evalApi rand now models 0 r
      hmem herr

/-- Witness for C7: the failed evaluation of a custom model without a
dataset carries the zero metrics. -/
theorem error_results_zero_metrics_witness :
    (evaluateOne none none (fun _ _ => Except.ok none) (fun _ => 0) "now"
      customSample).metrics = zeroMetrics :=
  error_results_zero_metrics none none (fun _ _ => Except.ok none) (fun _ _ => 0)
    (fun _ => "now") [customSample]
    [evaluateOne none none (fun _ _ => Except.ok none) (fun _ => 0) "now" customSample]
    (evaluateOne none none (fun _ _ => Except.ok none) (fun _ => 0) "now" customSample)
    rfl (List.mem_singleton.mpr rfl) (by decide)

end MernAi
